import Mathlib

/-!
Shallow embedding of the diy-loadbalancer control plane
(LoadBalancerDO, LoadBalancerRegistryDO, MonitorEndpointWorkflow,
DeploySnippetWorkflow) and proofs about the behaviours its specification
describes. Timestamps are naturals in milliseconds; JavaScript objects
keyed by strings are embedded as association lists in insertion order.
-/

set_option autoImplicit false

namespace DIYLB

/-! ### JavaScript object primitives

`getk` is property lookup, `setk` is property assignment (overwrite the key
in place when present, append otherwise), `delk` is the delete operator.
-/

def getk {α : Type} (k : String) : List (String × α) → Option α
  | [] => none
  | p :: rest => if p.1 = k then some p.2 else getk k rest

def setk {α : Type} (k : String) (v : α) : List (String × α) → List (String × α)
  | [] => [(k, v)]
  | p :: rest => if p.1 = k then (k, v) :: rest else p :: setk k v rest

def delk {α : Type} (k : String) : List (String × α) → List (String × α)
  | [] => []
  | p :: rest => if p.1 = k then rest else p :: delk k rest

/-! ### Data model (interfaces of loadBalancerDO.ts) -/

structure HealthCheckConfig where
  probeInterval : Nat
  probePath : String
deriving DecidableEq, Repr

structure RoutingExpression where
  hostname : Option String
  path : Option String
deriving DecidableEq, Repr

structure LoadBalancerConfig where
  name : String
  hosts : List String
  healthCheckConfig : HealthCheckConfig
  expression : RoutingExpression
deriving DecidableEq, Repr

structure HealthRecord where
  isHealthy : Bool
  lastChecked : Nat
  nextCheck : Nat
  workflowId : Option String
deriving DecidableEq, Repr

/-- The nested `HealthStatus` object: load-balancer name, then host, then
record. -/
abbrev HealthTable := List (String × List (String × HealthRecord))

structure HealthStatusUpdate where
  endpoint : String
  isHealthy : Bool
  timestamp : Nat
  loadBalancerName : String
deriving DecidableEq, Repr

/-! ### The /api/health-status/update handler (part_000 lines 253-282)

The handler reads the stored table, initialises the nested object for the
update's load-balancer name when missing, then assigns
`{...existing, isHealthy, lastChecked: timestamp, nextCheck: timestamp + 30*1000}`
(the spread preserves an existing `workflowId`), stores the table and
broadcasts it. It never consults the stored config.
-/

def applyHealthUpdate (healthStatus : HealthTable) (update : HealthStatusUpdate) :
    HealthTable :=
  let lbTable := (getk update.loadBalancerName healthStatus).getD []
  let existing := getk update.endpoint lbTable
  let updatedRecord : HealthRecord :=
    { isHealthy := update.isHealthy
      lastChecked := update.timestamp
      nextCheck := update.timestamp + 30 * 1000
      workflowId := existing.bind (fun r => r.workflowId) }
  setk update.loadBalancerName (setk update.endpoint updatedRecord lbTable) healthStatus

/-! ### updateConfig (part_000 lines 832-871), health-table part

`updateConfig` stores the new config and rebuilds the health table from a
fresh object carrying the single key `newConfig.name`, copying over only the
records of hosts still listed in the new config.
-/

def keepHost (lbTable : List (String × HealthRecord))
    (acc : List (String × HealthRecord)) (host : String) :
    List (String × HealthRecord) :=
  match getk host lbTable with
  | some r => setk host r acc
  | none => acc

def updateConfigHealth (healthStatus : HealthTable) (newConfig : LoadBalancerConfig) :
    HealthTable :=
  let lbTable := (getk newConfig.name healthStatus).getD []
  [(newConfig.name, newConfig.hosts.foldl (keepHost lbTable) [])]

/-! ### handleAlarm (part_000 lines 756-812) and
scheduleNextHealthCheck (lines 814-830)

`handleAlarm` returns early when no stored config exists or it has no hosts;
otherwise it first re-arms the alarm (`scheduleNextHealthCheck`, which uses
the in-memory `this.config` interval and the current clock), then attempts to
spawn one monitor workflow per host — a throwing spawn is caught and skipped —
and finally stores the updated health table. The clock during one handler
invocation is modelled as the single instant `now`; a spawn outcome is
`some workflowId` on success and `none` when `create` throws.
-/

def alarmHostRecord (existing : Option HealthRecord) (workflowId : String)
    (now interval : Nat) : HealthRecord :=
  { isHealthy := (existing.map (fun r => r.isHealthy)).getD false
    lastChecked := (existing.map (fun r => r.lastChecked)).getD now
    nextCheck := now + interval * 1000
    workflowId := some workflowId }

def spawnHost (name : String) (interval : Nat) (now : Nat)
    (spawn : String → Option String) (hs : HealthTable) (host : String) : HealthTable :=
  match spawn host with
  | none => hs
  | some wid =>
    let lbTable := (getk name hs).getD []
    setk name (setk host (alarmHostRecord (getk host lbTable) wid now interval) lbTable) hs

def alarmHealth (storedConfig : Option LoadBalancerConfig) (healthStatus : HealthTable)
    (now : Nat) (spawn : String → Option String) : HealthTable :=
  match storedConfig with
  | none => healthStatus
  | some c =>
    if c.hosts.isEmpty then healthStatus
    else
      let withInit := if (getk c.name healthStatus).isSome then healthStatus
                      else setk c.name [] healthStatus
      c.hosts.foldl (spawnHost c.name c.healthCheckConfig.probeInterval now spawn) withInit

/-- The storage and spawn effects of one `handleAlarm` invocation, in program
order. -/
inductive AlarmEvent where
  | putNextCheck (t : Nat)
  | setAlarm (t : Nat)
  | spawnWorkflow (host : String)
  | putHealthStatus (hs : HealthTable)
deriving Repr

structure AlarmInput where
  storedConfig : Option LoadBalancerConfig
  storedHealth : HealthTable
  /-- `this.config.healthCheckConfig.probeInterval`, the in-memory config's
  interval read by `scheduleNextHealthCheck`. -/
  memProbeInterval : Nat
  /-- `Date.now()` at the firing. -/
  now : Nat
  /-- Outcome of `MONITOR_ENDPOINT_WORKFLOW.create` per host: the id on
  success, `none` when the call throws. -/
  spawnResult : String → Option String

def scheduleNextHealthCheckTrace (inp : AlarmInput) : List AlarmEvent :=
  let nextCheck := inp.now + inp.memProbeInterval * 1000
  [AlarmEvent.putNextCheck nextCheck, AlarmEvent.setAlarm nextCheck]

def handleAlarmTrace (inp : AlarmInput) : List AlarmEvent :=
  match inp.storedConfig with
  | none => []
  | some c =>
    if c.hosts.isEmpty then []
    else
      scheduleNextHealthCheckTrace inp
        ++ c.hosts.map AlarmEvent.spawnWorkflow
        ++ [AlarmEvent.putHealthStatus
              (alarmHealth inp.storedConfig inp.storedHealth inp.now inp.spawnResult)]

/-! ### The load-balancer actor as a state machine

The durable state the claims speak about: the stored config and the stored
health table. Each constructor of `ActorOp` is one serialized operation of
the actor.
-/

structure ActorState where
  storedConfig : Option LoadBalancerConfig
  health : HealthTable
deriving Repr

inductive ActorOp where
  | updateCfg (c : LoadBalancerConfig)
  | healthUpdate (u : HealthStatusUpdate)
  | alarmFire (now : Nat) (spawn : String → Option String)
  | deleteAll

def stepOp (s : ActorState) : ActorOp → ActorState
  | ActorOp.updateCfg c =>
      { storedConfig := some c, health := updateConfigHealth s.health c }
  | ActorOp.healthUpdate u =>
      { s with health := applyHealthUpdate s.health u }
  | ActorOp.alarmFire now spawn =>
      { s with health := alarmHealth s.storedConfig s.health now spawn }
  | ActorOp.deleteAll =>
      { storedConfig := none
        health := match s.storedConfig with
          | some c => delk c.name s.health
          | none => s.health }

def runOps (s : ActorState) : List ActorOp → ActorState
  | [] => s
  | op :: rest => runOps (stepOp s op) rest

def initialActorState : ActorState := { storedConfig := none, health := [] }

/-- The invariant claimed of the health table: a record stored under a name
and host is owned by the current config — the name is the config's and the
host is among the config's hosts. -/
def configOnlyInvariant (s : ActorState) : Bool :=
  s.health.all (fun entry =>
    entry.2.all (fun hostEntry =>
      match s.storedConfig with
      | some c => decide (entry.1 = c.name) && decide (hostEntry.1 ∈ c.hosts)
      | none => false))

/-! ### Observer sessions and the multicast helpers
(part_000 lines 454-470, 472-491, 670-694, 729-754)

A session whose `send` throws is a dead connection, modelled by
`sendOk = false`. `broadcastHealthStatus` and `broadcastConfigUpdate` rebuild
`this.sessions` through `filter` with a try/catch around the send, so a
throwing session is dropped; `broadcastWorkflowStatus` and
`broadcastWorkflowUpdate` walk the sessions with `forEach`, catch and log the
failure, and leave the session list untouched. Each helper returns the
session list afterwards together with the ids the message reached; none of
them retries a send or propagates an error.
-/

structure Session where
  sid : Nat
  sendOk : Bool
deriving DecidableEq, Repr

def broadcastHealthStatusSessions (sessions : List Session) :
    List Session × List Nat :=
  let alive := sessions.filter (fun ws => ws.sendOk)
  (alive, alive.map (fun ws => ws.sid))

def broadcastConfigUpdateSessions (sessions : List Session) :
    List Session × List Nat :=
  let alive := sessions.filter (fun ws => ws.sendOk)
  (alive, alive.map (fun ws => ws.sid))

def broadcastWorkflowStatusSessions (sessions : List Session) :
    List Session × List Nat :=
  (sessions, (sessions.filter (fun ws => ws.sendOk)).map (fun ws => ws.sid))

def broadcastWorkflowUpdateSessions (sessions : List Session) :
    List Session × List Nat :=
  (sessions, (sessions.filter (fun ws => ws.sendOk)).map (fun ws => ws.sid))

/-! ### Observer attachment (part_000 lines 103-134, 339-354, 359-418)

`fetch` dispatches on the request in source order. Its first branch matches
any request whose Upgrade header is exactly "websocket" and pushes
`initialHealthStatus` with an empty `{}` snapshot to the new session. The
`/api/ws` branch further down forwards to `handleWebSocket`, which pushes
the snapshot read from storage — but that branch demands the very Upgrade
header the first branch has already consumed, so no request reaches it.
-/

structure WsRequest where
  upgradeHeader : Option String
  path : String
deriving DecidableEq, Repr

inductive WsMessage where
  | initialHealthStatus (healthStatus : HealthTable)
deriving DecidableEq, Repr

def fetchFirstSessionMessage (req : WsRequest) (storedHealth : HealthTable) :
    Option WsMessage :=
  if req.upgradeHeader = some "websocket" then
    some (WsMessage.initialHealthStatus [])
  else if req.path = "/api/ws" then
    if req.upgradeHeader = some "websocket" then
      some (WsMessage.initialHealthStatus storedHealth)
    else none
  else none

/-! ### Registry listing (loadBalancerRegistryDO.ts lines 103-155)

The GET /api/loadbalancers handler maps every registered (name, config) pair
to a promise that queries the owning actor's health table and merges each
configured host's record; `Promise.all` rejects as soon as one query rejects,
and the handler's surrounding try/catch turns that rejection into a logged
500 response for the whole call. A query outcome is `Except.ok table` or
`Except.error message`; the handler's outcome is the listing array or the
error the catch received.
-/

def mergeHealthForConfig (name : String) (config : LoadBalancerConfig)
    (healthStatus : HealthTable) : List (String × HealthRecord) :=
  config.hosts.foldl (fun acc host =>
    match getk host ((getk name healthStatus).getD []) with
    | some status => setk host status acc
    | none => acc) []

structure LoadBalancerListing where
  name : String
  config : LoadBalancerConfig
  healthStatus : List (String × HealthRecord)
deriving Repr

def listLoadBalancers (loadBalancers : List (String × LoadBalancerConfig))
    (queryHealth : String → Except String HealthTable) :
    Except String (List LoadBalancerListing) :=
  match loadBalancers with
  | [] => Except.ok []
  | entry :: rest =>
    match queryHealth entry.1 with
    | Except.error e => Except.error e
    | Except.ok healthStatus =>
      match listLoadBalancers rest queryHealth with
      | Except.error e => Except.error e
      | Except.ok listings =>
        Except.ok ({ name := entry.1, config := entry.2,
                     healthStatus := mergeHealthForConfig entry.1 entry.2 healthStatus }
                   :: listings)

/-! ### Deployment workflow, update-rules step
(deploySnippetWorkflow.ts lines 166-248, 297-299)

The step builds the match expression from the routing expression, fetches
the full rule list, drops every rule whose `snippet_name` equals this load
balancer's sanitized name, appends the one new rule and writes the list
back. `sanitizeSnippetName` lowercases the name and replaces every character
outside `[a-z0-9_]` with an underscore.
-/

structure SnippetRule where
  description : String
  enabled : Bool
  expression : String
  snippet_name : String
deriving DecidableEq, Repr

def isSnippetNameChar (c : Char) : Bool :=
  decide (('a' ≤ c ∧ c ≤ 'z') ∨ ('0' ≤ c ∧ c ≤ '9') ∨ c = '_')

def sanitizeSnippetName (name : String) : String :=
  String.mk (name.toLower.data.map (fun c => if isSnippetNameChar c then c else '_'))

def buildRuleExpression (expression : RoutingExpression) : String :=
  let conditions :=
    (match expression.hostname with
     | some h => ["(http.host eq \"" ++ h ++ "\")"]
     | none => []) ++
    (match expression.path with
     | some p => ["(http.request.uri.path contains \"" ++ p ++ "\")"]
     | none => [])
  if conditions.isEmpty then "true" else String.intercalate " and " conditions

def newSnippetRule (loadBalancerName : String) (expression : RoutingExpression) :
    SnippetRule :=
  { description := "Rule for load balancer: " ++ loadBalancerName
    enabled := true
    expression := buildRuleExpression expression
    snippet_name := sanitizeSnippetName loadBalancerName }

def updateRulesStep (existingRules : List SnippetRule) (loadBalancerName : String)
    (expression : RoutingExpression) : List SnippetRule :=
  let sanitizedName := sanitizeSnippetName loadBalancerName
  (existingRules.filter (fun rule => rule.snippet_name != sanitizedName))
    ++ [newSnippetRule loadBalancerName expression]

/-! ### Monitor workflow, test-endpoint step
(monitorEndpointWorkflow.ts lines 33-99)

The step issues one GET to the probed host. A response classifies
`isHealthy = status < 400`; a connection-level failure is caught inside the
step and becomes a result with `isHealthy = false` — the step itself always
returns a `MonitorResult`, it never rethrows.
-/

inductive ProbeOutcome where
  | response (status : Nat)
  | connectionFailure (message : String)
deriving DecidableEq, Repr

structure MonitorResult where
  endpoint : String
  isHealthy : Bool
  statusCode : Option Nat
  responseTime : Nat
  timestamp : Nat
  message : Option String
deriving DecidableEq, Repr

def testEndpointStep (endpoint : String) (outcome : ProbeOutcome)
    (startTime finishTime : Nat) : MonitorResult :=
  match outcome with
  | ProbeOutcome.response status =>
      { endpoint := endpoint
        isHealthy := decide (status < 400)
        statusCode := some status
        responseTime := finishTime - startTime
        timestamp := finishTime
        message := some (if status < 400 then "Healthy (" ++ toString status ++ ")"
                         else "Unhealthy - Status: " ++ toString status) }
  | ProbeOutcome.connectionFailure msg =>
      { endpoint := endpoint
        isHealthy := false
        statusCode := none
        responseTime := finishTime - startTime
        timestamp := finishTime
        message := some ("Unhealthy - " ++ msg) }

/-! ### Lemmas about the object primitives -/

theorem getk_setk_self {α : Type} (k : String) (v : α) (m : List (String × α)) :
    getk k (setk k v m) = some v := by
  induction m with
  | nil => simp [getk, setk]
  | cons p rest ih =>
    by_cases h : p.1 = k
    · simp [setk, getk, h]
    · simp [setk, getk, h, ih]

theorem mem_setk {α : Type} (k : String) (v : α) (m : List (String × α))
    (p : String × α) (hp : p ∈ setk k v m) : p = (k, v) ∨ p ∈ m := by
  induction m with
  | nil => simpa [setk] using hp
  | cons q rest ih =>
    by_cases h : q.1 = k
    · rw [setk, if_pos h, List.mem_cons] at hp
      rcases hp with h1 | h1
      · exact Or.inl h1
      · exact Or.inr (List.mem_cons_of_mem _ h1)
    · rw [setk, if_neg h, List.mem_cons] at hp
      rcases hp with h1 | h1
      · exact Or.inr (h1 ▸ List.mem_cons_self _ _)
      · rcases ih h1 with h2 | h2
        · exact Or.inl h2
        · exact Or.inr (List.mem_cons_of_mem _ h2)

theorem mem_foldl_keepHost (tbl : List (String × HealthRecord)) (hosts : List String)
    (acc : List (String × HealthRecord)) (p : String × HealthRecord)
    (hp : p ∈ hosts.foldl (keepHost tbl) acc) : p.1 ∈ hosts ∨ p ∈ acc := by
  induction hosts generalizing acc with
  | nil => exact Or.inr hp
  | cons h hs ih =>
    rcases ih (keepHost tbl acc h) hp with h1 | h1
    · exact Or.inl (List.mem_cons_of_mem _ h1)
    · rw [keepHost] at h1
      cases hgk : getk h tbl with
      | none => rw [hgk] at h1; exact Or.inr h1
      | some r =>
        rw [hgk] at h1
        rcases mem_setk h r acc p h1 with h2 | h2
        · exact Or.inl (h2 ▸ List.mem_cons_self _ _)
        · exact Or.inr h2

/-- The record the /api/health-status/update handler leaves in storage for the
updated (name, endpoint) pair: fields from the update, the hard-coded
`30 * 1000` next-check offset, and the previously stored `workflowId`. -/
theorem getk_applyHealthUpdate (healthStatus : HealthTable)
    (update : HealthStatusUpdate) :
    getk update.endpoint
        ((getk update.loadBalancerName (applyHealthUpdate healthStatus update)).getD []) =
      some { isHealthy := update.isHealthy
             lastChecked := update.timestamp
             nextCheck := update.timestamp + 30 * 1000
             workflowId :=
               (getk update.endpoint
                   ((getk update.loadBalancerName healthStatus).getD [])).bind
                 (fun r => r.workflowId) } := by
  unfold applyHealthUpdate
  rw [getk_setk_self, Option.getD_some, getk_setk_self]

theorem filter_ne_then_eq_nil (rules : List SnippetRule) (s : String) :
    (rules.filter (fun r => r.snippet_name != s)).filter
        (fun r => r.snippet_name == s) = [] := by
  induction rules with
  | nil => rfl
  | cons r rest ih =>
    by_cases h : r.snippet_name = s
    · simp [List.filter_cons, h, ih]
    · simp [List.filter_cons, h, ih]

/-! ### Concrete example values used by witnesses and counterexamples -/

def exConfig : LoadBalancerConfig :=
  { name := "lb1", hosts := ["h1", "h2"]
    healthCheckConfig := { probeInterval := 30, probePath := "/" }
    expression := { hostname := none, path := none } }

def exAlarmInput : AlarmInput :=
  { storedConfig := some exConfig, storedHealth := [], memProbeInterval := 30
    now := 1000, spawnResult := fun _ => some "wf-1" }

def exRecordA : HealthRecord :=
  { isHealthy := true, lastChecked := 100, nextCheck := 200, workflowId := none }

def exRecordB : HealthRecord :=
  { isHealthy := false, lastChecked := 110, nextCheck := 210, workflowId := some "w-b" }

def exRecordC : HealthRecord :=
  { isHealthy := true, lastChecked := 120, nextCheck := 220, workflowId := none }

def exampleHealthABC : HealthTable :=
  [("lb1", [("A", exRecordA), ("B", exRecordB), ("C", exRecordC)])]

def exConfigOnlyA : LoadBalancerConfig :=
  { name := "lb1", hosts := ["A"]
    healthCheckConfig := { probeInterval := 30, probePath := "/" }
    expression := { hostname := none, path := none } }

/-- The actor state reached from nothing by storing `exConfigOnlyA`. -/
def exStateA : ActorState :=
  runOps initialActorState [ActorOp.updateCfg exConfigOnlyA]

def exUpdateB : HealthStatusUpdate :=
  { endpoint := "B", isHealthy := true, timestamp := 1000, loadBalancerName := "lb1" }

def exConfig60 : LoadBalancerConfig :=
  { name := "lb1", hosts := ["h1"]
    healthCheckConfig := { probeInterval := 60, probePath := "/" }
    expression := { hostname := none, path := none } }

def exUpdateH1 : HealthStatusUpdate :=
  { endpoint := "h1", isHealthy := true, timestamp := 1000, loadBalancerName := "lb1" }

def exConfigLB2 : LoadBalancerConfig :=
  { name := "lb2", hosts := ["h3"]
    healthCheckConfig := { probeInterval := 30, probePath := "/" }
    expression := { hostname := none, path := none } }

def exRegistryEntries : List (String × LoadBalancerConfig) :=
  [("lb1", exConfig), ("lb2", exConfigLB2)]

def exQueryHealth : String → Except String HealthTable :=
  fun name => if name = "lb2" then Except.error "health query failed" else Except.ok []

def exDeadSession : Session := { sid := 1, sendOk := false }

/-! ### The claims -/

/-- C1: whenever the recurring alarm fires while a stored config with at
least one host is present, `handleAlarm` re-arms the next alarm (storage put
and `setAlarm`) before any workflow spawn; the scheduled time is
`now + probeInterval * 1000`, computed from the clock at the firing — not
from the previous fire time — so it is strictly greater than `now`,
identical for every spawn outcome (including every spawn throwing), and
already armed when the spawn loop runs. -/
theorem alarm_rearms_timer_before_spawning (inp : AlarmInput)
    (c : LoadBalancerConfig) (hc : inp.storedConfig = some c)
    (hne : c.hosts ≠ []) (hpos : 0 < inp.memProbeInterval) :
    (handleAlarmTrace inp).take 2 =
      [AlarmEvent.putNextCheck (inp.now + inp.memProbeInterval * 1000),
       AlarmEvent.setAlarm (inp.now + inp.memProbeInterval * 1000)] ∧
    inp.now < inp.now + inp.memProbeInterval * 1000 ∧
    (∀ spawn2 : String → Option String,
      (handleAlarmTrace { inp with spawnResult := spawn2 }).take 2 =
        (handleAlarmTrace inp).take 2) ∧
    (∀ i : Nat, ∀ host : String,
      (handleAlarmTrace inp).get? i = some (AlarmEvent.spawnWorkflow host) → 2 ≤ i) := by
  have hempty : c.hosts.isEmpty = false := by
    cases hcs : c.hosts with
    | nil => exact absurd hcs hne
    | cons a as => rfl
  have htake : ∀ spawn2 : String → Option String,
      (handleAlarmTrace { inp with spawnResult := spawn2 }).take 2 =
        [AlarmEvent.putNextCheck (inp.now + inp.memProbeInterval * 1000),
         AlarmEvent.setAlarm (inp.now + inp.memProbeInterval * 1000)] := by
    intro spawn2
    simp [handleAlarmTrace, hc, hempty, scheduleNextHealthCheckTrace]
  have htake0 : (handleAlarmTrace inp).take 2 =
      [AlarmEvent.putNextCheck (inp.now + inp.memProbeInterval * 1000),
       AlarmEvent.setAlarm (inp.now + inp.memProbeInterval * 1000)] := by
    simp [handleAlarmTrace, hc, hempty, scheduleNextHealthCheckTrace]
  refine ⟨htake0, by omega, fun spawn2 => (htake spawn2).trans htake0.symm, ?_⟩
  intro i host hget
  obtain ⟨rest, htrace⟩ : ∃ rest, handleAlarmTrace inp =
      AlarmEvent.putNextCheck (inp.now + inp.memProbeInterval * 1000)
        :: AlarmEvent.setAlarm (inp.now + inp.memProbeInterval * 1000) :: rest := by
    refine ⟨c.hosts.map AlarmEvent.spawnWorkflow
      ++ [AlarmEvent.putHealthStatus
            (alarmHealth inp.storedConfig inp.storedHealth inp.now inp.spawnResult)], ?_⟩
    simp [handleAlarmTrace, hc, hempty, scheduleNextHealthCheckTrace]
  rw [htrace] at hget
  match i with
  | 0 => simp [List.get?] at hget
  | 1 => simp [List.get?] at hget
  | n + 2 => omega

/-- C1 witness: the theorem instantiated at a concrete firing. -/
theorem alarm_rearms_timer_before_spawning_witness :
    (handleAlarmTrace exAlarmInput).take 2 =
      [AlarmEvent.putNextCheck (exAlarmInput.now + exAlarmInput.memProbeInterval * 1000),
       AlarmEvent.setAlarm (exAlarmInput.now + exAlarmInput.memProbeInterval * 1000)] ∧
    exAlarmInput.now < exAlarmInput.now + exAlarmInput.memProbeInterval * 1000 ∧
    (∀ spawn2 : String → Option String,
      (handleAlarmTrace { exAlarmInput with spawnResult := spawn2 }).take 2 =
        (handleAlarmTrace exAlarmInput).take 2) ∧
    (∀ i : Nat, ∀ host : String,
      (handleAlarmTrace exAlarmInput).get? i = some (AlarmEvent.spawnWorkflow host) →
        2 ≤ i) :=
  alarm_rearms_timer_before_spawning exAlarmInput exConfig rfl (by decide) (by decide)

/-- C2 (amended): immediately after every config update the invariant holds —
every stored record sits under the new config's name for a host in its hosts
list — and replacing a config owning records for [A, B, C] with hosts [A]
leaves a table containing only A. (The invariant is not maintained by the
health-update operation; see the counterexample.) -/
theorem health_invariant_restored_by_config_update (s : ActorState)
    (c : LoadBalancerConfig) :
    configOnlyInvariant (stepOp s (ActorOp.updateCfg c)) = true ∧
    updateConfigHealth exampleHealthABC exConfigOnlyA = [("lb1", [("A", exRecordA)])] := by
  constructor
  · have hmem : ∀ p ∈ c.hosts.foldl (keepHost ((getk c.name s.health).getD [])) [],
        p.1 ∈ c.hosts := by
      intro p hp
      rcases mem_foldl_keepHost _ c.hosts [] p hp with h1 | h1
      · exact h1
      · cases h1
    simp only [stepOp, updateConfigHealth, configOnlyInvariant, List.all_cons,
      List.all_nil, Bool.and_true]
    rw [List.all_eq_true]
    intro x hx
    simp only [Bool.and_eq_true, decide_eq_true_eq]
    exact ⟨by trivial, hmem x hx⟩
  · decide

/-- C2 counterexample: from the empty actor, store a config with hosts [A]
and then apply a health update for host B — a reachable state whose table
holds a record for a host absent from the owning config. -/
theorem health_invariant_not_preserved_counterexample :
    configOnlyInvariant
        (runOps initialActorState
          [ActorOp.updateCfg exConfigOnlyA, ActorOp.healthUpdate exUpdateB]) = false := by
  decide

/-- C3 (amended): the stored record takes `isHealthy` and `lastChecked` from
the update, preserves the stored `workflowId`, and sets `nextCheck` to the
hard-coded `timestamp + 30 * 1000` — the handler never reads the config's
probe interval. -/
theorem health_update_next_check_fixed_30s (healthStatus : HealthTable)
    (update : HealthStatusUpdate) :
    getk update.endpoint
        ((getk update.loadBalancerName (applyHealthUpdate healthStatus update)).getD []) =
      some { isHealthy := update.isHealthy
             lastChecked := update.timestamp
             nextCheck := update.timestamp + 30 * 1000
             workflowId :=
               (getk update.endpoint
                   ((getk update.loadBalancerName healthStatus).getD [])).bind
                 (fun r => r.workflowId) } :=
  getk_applyHealthUpdate healthStatus update

/-- C3 counterexample: with the current config's probe interval at 60
seconds, the record stored for a timestamp-1000 update carries
nextCheck 31000, not 1000 + 60 * 1000. -/
theorem next_check_not_probe_interval_counterexample :
    (runOps initialActorState
        [ActorOp.updateCfg exConfig60, ActorOp.healthUpdate exUpdateH1]).storedConfig
      = some exConfig60 ∧
    getk "h1" ((getk "lb1"
        (runOps initialActorState
          [ActorOp.updateCfg exConfig60, ActorOp.healthUpdate exUpdateH1]).health).getD [])
      = some { isHealthy := true, lastChecked := 1000, nextCheck := 31000
               workflowId := none } ∧
    (31000 : Nat) ≠ exUpdateH1.timestamp + exConfig60.healthCheckConfig.probeInterval * 1000 := by
  decide

/-- C4 (amended): a health update naming a host absent from the current
config's hosts list is applied all the same — the handler upserts the record
unconditionally, so the stored table gains or rewrites that host's entry. -/
theorem health_update_not_ignored_for_absent_host (s : ActorState)
    (c : LoadBalancerConfig) (update : HealthStatusUpdate)
    (_hc : s.storedConfig = some c) (_habs : update.endpoint ∉ c.hosts) :
    getk update.endpoint
        ((getk update.loadBalancerName
            (stepOp s (ActorOp.healthUpdate update)).health).getD [])
      = some { isHealthy := update.isHealthy
               lastChecked := update.timestamp
               nextCheck := update.timestamp + 30 * 1000
               workflowId :=
                 (getk update.endpoint
                     ((getk update.loadBalancerName s.health).getD [])).bind
                   (fun r => r.workflowId) } :=
  getk_applyHealthUpdate s.health update

/-- C4 witness: the theorem at the concrete state owning hosts [A] and an
update for the absent host B. -/
theorem health_update_not_ignored_for_absent_host_witness :
    getk exUpdateB.endpoint
        ((getk exUpdateB.loadBalancerName
            (stepOp exStateA (ActorOp.healthUpdate exUpdateB)).health).getD [])
      = some { isHealthy := exUpdateB.isHealthy
               lastChecked := exUpdateB.timestamp
               nextCheck := exUpdateB.timestamp + 30 * 1000
               workflowId :=
                 (getk exUpdateB.endpoint
                     ((getk exUpdateB.loadBalancerName exStateA.health).getD [])).bind
                   (fun r => r.workflowId) } :=
  health_update_not_ignored_for_absent_host exStateA exConfigOnlyA exUpdateB rfl
    (by decide)

/-- C4 counterexample: B is not among the config's hosts [A], yet the update
for B changes the stored health table. -/
theorem absent_host_update_changes_table_counterexample :
    exConfigOnlyA.hosts.contains "B" = false ∧
    (stepOp exStateA (ActorOp.healthUpdate exUpdateB)).health ≠ exStateA.health := by
  decide

/-- C5 (amended): when the health query for any registered load balancer
fails, the whole GET /api/loadbalancers call fails — the rejection reaches
the handler's top-level catch and an error response replaces the listing,
partial results included. -/
theorem registry_listing_fails_whole_call
    (loadBalancers : List (String × LoadBalancerConfig))
    (queryHealth : String → Except String HealthTable)
    (name : String) (config : LoadBalancerConfig) (e : String)
    (hmem : (name, config) ∈ loadBalancers)
    (herr : queryHealth name = Except.error e) :
    ∃ msg, listLoadBalancers loadBalancers queryHealth = Except.error msg := by
  induction loadBalancers with
  | nil => cases hmem
  | cons entry rest ih =>
    rw [List.mem_cons] at hmem
    unfold listLoadBalancers
    cases hq : queryHealth entry.1 with
    | error e2 => exact ⟨e2, rfl⟩
    | ok tbl =>
      rcases hmem with h1 | h1
      · subst h1
        simp [herr] at hq
      · rcases ih h1 with ⟨msg, hmsg⟩
        rw [hmsg]
        exact ⟨msg, rfl⟩

/-- C5 witness: the theorem at a registry of two load balancers where lb2's
query fails. -/
theorem registry_listing_fails_whole_call_witness :
    ∃ msg, listLoadBalancers exRegistryEntries exQueryHealth = Except.error msg :=
  registry_listing_fails_whole_call exRegistryEntries exQueryHealth "lb2" exConfigLB2
    "health query failed" (by decide) rfl

/-- C5 counterexample: lb1's query succeeds and lb2's fails, and the listing
call returns the error — not a successful listing covering lb1. -/
theorem listing_not_partial_counterexample :
    exQueryHealth "lb1" = Except.ok [] ∧
    exQueryHealth "lb2" = Except.error "health query failed" ∧
    listLoadBalancers exRegistryEntries exQueryHealth
      = Except.error "health query failed" :=
  ⟨rfl, rfl, rfl⟩

/-- C6: the first message pushed to every attaching observer session is an
`initialHealthStatus` carrying the empty snapshot, whatever the stored
table holds — the generic upgrade branch matches first, and the `/api/ws`
handler that would push the stored snapshot is unreachable. -/
theorem first_observer_message_is_empty_snapshot (req : WsRequest)
    (storedHealth : HealthTable) (h : req.upgradeHeader = some "websocket") :
    fetchFirstSessionMessage req storedHealth =
      some (WsMessage.initialHealthStatus []) := by
  simp [fetchFirstSessionMessage, h]

/-- C6 witness: an upgrade request to /api/ws against a nonempty stored
table still receives the empty snapshot. -/
theorem first_observer_message_is_empty_snapshot_witness :
    fetchFirstSessionMessage { upgradeHeader := some "websocket", path := "/api/ws" }
        exampleHealthABC = some (WsMessage.initialHealthStatus []) :=
  first_observer_message_is_empty_snapshot
    { upgradeHeader := some "websocket", path := "/api/ws" } exampleHealthABC rfl

/-- C7 (amended): a session whose send throws is evicted by the
health-status and config multicasts, but the workflow-status multicasts
catch the failure and leave the session set unchanged; no multicast retries
or surfaces an error (each helper is total). -/
theorem multicast_eviction_policy (sessions : List Session) (ws : Session)
    (hdead : ws.sendOk = false) :
    ws ∉ (broadcastHealthStatusSessions sessions).1 ∧
    ws ∉ (broadcastConfigUpdateSessions sessions).1 ∧
    (ws ∈ sessions → ws ∈ (broadcastWorkflowStatusSessions sessions).1) ∧
    (ws ∈ sessions → ws ∈ (broadcastWorkflowUpdateSessions sessions).1) := by
  refine ⟨?_, ?_, fun h => h, fun h => h⟩
  · intro hmem
    rw [broadcastHealthStatusSessions, List.mem_filter] at hmem
    rw [hdead] at hmem
    exact Bool.false_ne_true hmem.2
  · intro hmem
    rw [broadcastConfigUpdateSessions, List.mem_filter] at hmem
    rw [hdead] at hmem
    exact Bool.false_ne_true hmem.2

/-- C7 witness: the theorem at a single dead session. -/
theorem multicast_eviction_policy_witness :
    exDeadSession ∉ (broadcastHealthStatusSessions [exDeadSession]).1 ∧
    exDeadSession ∉ (broadcastConfigUpdateSessions [exDeadSession]).1 ∧
    (exDeadSession ∈ [exDeadSession] →
      exDeadSession ∈ (broadcastWorkflowStatusSessions [exDeadSession]).1) ∧
    (exDeadSession ∈ [exDeadSession] →
      exDeadSession ∈ (broadcastWorkflowUpdateSessions [exDeadSession]).1) :=
  multicast_eviction_policy [exDeadSession] exDeadSession rfl

/-- C7 counterexample: a workflow-status multicast to a session whose send
fails keeps that session in the active set, while the health-status
multicast drops it. -/
theorem workflow_multicast_keeps_dead_session_counterexample :
    exDeadSession.sendOk = false ∧
    (broadcastWorkflowStatusSessions [exDeadSession]).1 = [exDeadSession] ∧
    (broadcastWorkflowUpdateSessions [exDeadSession]).1 = [exDeadSession] ∧
    (broadcastHealthStatusSessions [exDeadSession]).1 = [] := by
  decide

/-- C8: the rule list written back is the fetched list with every rule whose
snippet_name equals the sanitized load-balancer name removed, rules owned by
other names preserved in order, and exactly one new rule for this load
balancer appended at the end; the sanitized name is the lowercased name with
every character outside [a-z0-9_] replaced by an underscore. -/
theorem update_rules_replaces_own_and_appends (existingRules : List SnippetRule)
    (loadBalancerName : String) (expression : RoutingExpression) :
    updateRulesStep existingRules loadBalancerName expression =
      (existingRules.filter
          (fun rule => rule.snippet_name != sanitizeSnippetName loadBalancerName))
        ++ [newSnippetRule loadBalancerName expression] ∧
    ((updateRulesStep existingRules loadBalancerName expression).filter
        (fun rule => rule.snippet_name == sanitizeSnippetName loadBalancerName)).length
      = 1 ∧
    (updateRulesStep existingRules loadBalancerName expression).getLast? =
      some (newSnippetRule loadBalancerName expression) ∧
    (newSnippetRule loadBalancerName expression).snippet_name =
      sanitizeSnippetName loadBalancerName ∧
    (sanitizeSnippetName loadBalancerName).data =
      loadBalancerName.toLower.data.map
        (fun c => if isSnippetNameChar c then c else '_') := by
  refine ⟨rfl, ?_, ?_, rfl, rfl⟩
  · rw [updateRulesStep, List.filter_append, filter_ne_then_eq_nil]
    simp [newSnippetRule]
  · rw [updateRulesStep]
    exact List.getLast?_concat _

/-- C9: the check-endpoint step classifies the probe healthy exactly when an
HTTP response arrived with status strictly below 400; a connection-level
failure is converted into an unhealthy result instead of raising (the step
is a total function into MonitorResult). -/
theorem probe_health_classification (endpoint : String) (outcome : ProbeOutcome)
    (startTime finishTime : Nat) (message : String) :
    ((testEndpointStep endpoint outcome startTime finishTime).isHealthy = true ↔
      ∃ status, outcome = ProbeOutcome.response status ∧ status < 400) ∧
    (testEndpointStep endpoint (ProbeOutcome.connectionFailure message)
        startTime finishTime).isHealthy = false := by
  refine ⟨?_, rfl⟩
  cases outcome with
  | response status =>
    constructor
    · intro h
      refine ⟨status, rfl, ?_⟩
      simpa [testEndpointStep] using h
    · rintro ⟨s, hs, hlt⟩
      cases hs
      simpa [testEndpointStep] using hlt
  | connectionFailure msg =>
    constructor
    · intro h
      cases h
    · rintro ⟨s, hs, _⟩
      cases hs

/-- C10: after a config update the persisted health-status object carries
exactly one top-level key, the new config's name; entries stored under any
other load-balancer name beforehand are erased (shown concretely for a
table holding a foreign top-level entry). -/
theorem config_update_single_top_key (healthStatus : HealthTable)
    (newConfig : LoadBalancerConfig) :
    (updateConfigHealth healthStatus newConfig).map Prod.fst = [newConfig.name] ∧
    updateConfigHealth [("other", [("X", exRecordA)])] exConfigOnlyA
      = [("lb1", [])] :=
  ⟨rfl, rfl⟩

end DIYLB
